import Mathlib

/-!
# Verification of the email-agent pipeline (src/app/main.py)

Shallow embedding of the single source file `src/app/main.py`: a FastAPI
endpoint driving a fixed two-node LangGraph workflow
(`analyze_email` then `draft_reply`) over an `AgentState` record, with a
whitespace-trimming sanitizer `clean_reply`.

Modelling conventions:
- Python strings are Lean `String`s; `str.strip()` is modelled by
  `pyStrip` (drop leading and trailing whitespace characters), with the
  whitespace set restricted to the ASCII whitespace characters Python
  strips (space, tab, LF, VT, FF, CR, FS, GS, RS, US, NEL); the claims
  only involve ASCII inputs.
- `str.upper()` is modelled by `Char.toUpper` character-wise (ASCII
  uppercasing; the claims only involve ASCII inputs).
- The Python substring test `a in b` is modelled by `substrS a b`.
- The model client `llm.invoke` is a parameter of type
  `ModelClient := String → Except String String`: `Except.ok content`
  models a successful call returning `content`, `Except.error e` models
  the call raising an exception with message `e`.  A workflow node is a
  total Lean function of the client and the state, so a node that
  returns a value models the source's behaviour of letting no exception
  escape (every `llm.invoke` in the source sits inside a
  `try/except Exception` that produces a fallback update).
- LangGraph merges the partial dict a node returns into the state; each
  node is embedded as returning the merged state, together with the
  number of model-client invocations the node performed (`llmCalls`),
  which makes "the model is never invoked" a provable statement.
-/

/-- Whitespace characters stripped by Python's `str.strip()`, restricted to
the ASCII/Latin-1 range (space, `\t`, `\n`, `\x0b`, `\x0c`, `\r`,
`\x1c`–`\x1f`, `\x85`).  Unicode space-category characters are out of scope
for the claims. -/
def pyWhitespace (c : Char) : Bool :=
  c == ' ' || c == '\t' || c == '\n' || c == '\r' ||
  c.toNat == 0x0b || c.toNat == 0x0c ||
  c.toNat == 0x1c || c.toNat == 0x1d || c.toNat == 0x1e || c.toNat == 0x1f ||
  c.toNat == 0x85

/-- `str.strip()` on the character list: drop whitespace from the front,
then from the back. -/
def pyStripL (l : List Char) : List Char :=
  List.rdropWhile pyWhitespace (l.dropWhile pyWhitespace)

/-- Python `str.strip()` (no argument): remove leading and trailing
whitespace. -/
def pyStrip (s : String) : String :=
  ⟨pyStripL s.data⟩

/-- Python `str.upper()`, character-wise ASCII uppercasing. -/
def pyUpper (s : String) : String :=
  ⟨s.data.map Char.toUpper⟩

/-- `pat` is a prefix of `hay` (character lists). -/
def startsWithL : List Char → List Char → Bool
  | _, [] => true
  | [], _ :: _ => false
  | a :: as, b :: bs => a == b && startsWithL as bs

/-- `pat` occurs contiguously inside `hay` (character lists); the Python
substring test `pat in hay`. -/
def substrL (pat : List Char) : List Char → Bool
  | [] => startsWithL [] pat
  | h :: t => startsWithL (h :: t) pat || substrL pat t

/-- Python's `pat in hay` on strings. -/
def substrS (pat hay : String) : Bool :=
  substrL pat.data hay.data

/-- `CALENDLY_LINK` constant from `src/app/main.py`. -/
def CALENDLY_LINK : String := "https://cal.com/demo-link"

/-- `clean_reply` from `src/app/main.py`: the Reply Sanitizer.  The
production logic is redacted in the source; the demo body is
`return text.strip()`. -/
def clean_reply (text : String) : String :=
  pyStrip text

/-- `AgentState` from `src/app/main.py` (a `TypedDict` there).  The endpoint
always builds states with all four keys present, so the embedding is a plain
record; `state.get('history', ...)` therefore always finds the key and the
`'No previous history.'` default is dead for endpoint-built states. -/
structure AgentState where
  email_content : String
  history : String
  category : String
  generated_reply : String
deriving Repr, DecidableEq

/-- The model client: prompt string to either a successful completion
(`Except.ok`) or a raised exception with message (`Except.error`). -/
def ModelClient : Type := String → Except String String

/-- Result of running one workflow node: the merged state and how many
times the node invoked the model client. -/
structure StepOut where
  state : AgentState
  llmCalls : Nat
deriving Repr, DecidableEq

/-- The categorization prompt f-string of `analyze_email`, with
`history_text` and `email_text` interpolated. -/
def analyze_prompt (email_text history_text : String) : String :=
  "\n    You are an AI assistant.\n    Analyze the following email conversation:\n    \n    HISTORY: \"" ++ history_text ++
  "\"\n    CURRENT EMAIL: \"" ++ email_text ++
  "\"\n    \n    Categorize into one of: URGENT, LEAD, SPAM, OTHER.\n    Return ONLY the category name.\n    "

/-- The drafting prompt f-string of `draft_reply`, with `category`,
`history_text`, `email_text` and `CALENDLY_LINK` interpolated. -/
def draft_prompt (category email_text history_text : String) : String :=
  "\n    You are a helpful AI assistant.\n    Reply to the email based on category: " ++ category ++
  "\n    \n    HISTORY: \"" ++ history_text ++
  "\"\n    EMAIL: \"" ++ email_text ++
  "\"\n    \n    Link to include: " ++ CALENDLY_LINK ++
  "\n    Keep it professional and short.\n    "

/-- The `valid` list of `analyze_email`. -/
def validCategories : List String := ["URGENT", "LEAD", "SPAM", "OTHER"]

/-- `any(v in category for v in valid)` from `analyze_email`. -/
def categoryIsValidSub (category : String) : Bool :=
  validCategories.any (fun v => substrS v category)

/-- Node 1, `analyze_email` from `src/app/main.py`: build the categorization
prompt, invoke the client, normalize the response with
`.strip().upper()`, and fall back to `"OTHER"` when no valid label occurs
as a substring; on a raised exception, fall back to `"OTHER"`. -/
def analyze_email (llm : ModelClient) (state : AgentState) : StepOut :=
  let email_text := state.email_content
  let history_text := state.history
  let prompt := analyze_prompt email_text history_text
  match llm prompt with
  | Except.ok content =>
      let category := pyUpper (pyStrip content)
      let category := if ! categoryIsValidSub category then "OTHER" else category
      { state := { state with category := category }, llmCalls := 1 }
  | Except.error _ =>
      { state := { state with category := "OTHER" }, llmCalls := 1 }

/-- Node 2, `draft_reply` from `src/app/main.py`: if `"SPAM" in category`,
short-circuit to the `"IGNORE"` sentinel without invoking the client;
otherwise invoke the client on the drafting prompt and store
`clean_reply` of the raw reply, falling back to a fixed acknowledgment
string when the client raises. -/
def draft_reply (llm : ModelClient) (state : AgentState) : StepOut :=
  let category := state.category
  let email_text := state.email_content
  let history_text := state.history
  if substrS "SPAM" category then
    { state := { state with generated_reply := "IGNORE" }, llmCalls := 0 }
  else
    let prompt := draft_prompt category email_text history_text
    match llm prompt with
    | Except.ok raw_reply =>
        let cleaned_reply := clean_reply raw_reply
        { state := { state with generated_reply := cleaned_reply }, llmCalls := 1 }
    | Except.error _ =>
        { state := { state with generated_reply := "Thank you for your email. We will respond shortly." },
          llmCalls := 1 }

/-- The compiled workflow `app_agent.invoke`: run `analyze_email` then
`draft_reply` in sequence (the graph is `START → categorizer → writer →
END` with no other edges); also reports the total number of model-client
invocations. -/
def app_agent_invoke (llm : ModelClient) (state : AgentState) : AgentState × Nat :=
  let step1 := analyze_email llm state
  let step2 := draft_reply llm step1.state
  (step2.state, step1.llmCalls + step2.llmCalls)

/-- The initial state `run_agent` builds from the request body. -/
def initial_state (input history : String) : AgentState :=
  { email_content := input, history := history, category := "", generated_reply := "" }

/-- The JSON body `run_agent` returns: either the success dict
`\x7bstatus: "success", category, reply\x7d` or the error dict
`\x7bstatus: "error", detail\x7d`. -/
inductive ApiResponse where
  | success (category : String) (reply : String)
  | error (detail : String)
deriving Repr, DecidableEq

/-- The `status` field of the response dict. -/
def ApiResponse.statusField : ApiResponse → String
  | ApiResponse.success _ _ => "success"
  | ApiResponse.error _ => "error"

/-- `run_agent` from `src/app/main.py`, as a function of the outcome of
`app_agent.invoke(initial_state)`: `Except.ok result` models the workflow
completing with final state `result`, `Except.error e` models an uncaught
exception with message `e` escaping the workflow and being caught by the
endpoint's `try/except`. -/
def run_agent (invokeResult : Except String AgentState) : ApiResponse :=
  match invokeResult with
  | Except.ok result => ApiResponse.success result.category result.generated_reply
  | Except.error e => ApiResponse.error e

/-- The HTTP status code of the `run_agent` response.  The handler returns a
plain dict in both branches, never raises `HTTPException` and sets no
`status_code` on the route, so FastAPI serializes every response with the
route default 200. -/
def run_agent_http_status (invokeResult : Except String AgentState) : Nat :=
  match run_agent invokeResult with
  | ApiResponse.success _ _ => 200
  | ApiResponse.error _ => 200

/-! ## Helper lemmas -/

/-- The head of `l.dropWhile p` never satisfies `p`. -/
theorem head?_dropWhile_false (p : Char → Bool) :
    ∀ (l : List Char) (x : Char), (l.dropWhile p).head? = some x → p x = false := by
  intro l
  induction l with
  | nil =>
    intro x hx
    simp [List.dropWhile] at hx
  | cons a t ih =>
    intro x hx
    by_cases hp : p a
    · rw [List.dropWhile_cons_of_pos hp] at hx
      exact ih x hx
    · rw [List.dropWhile_cons_of_neg hp] at hx
      simp only [List.head?_cons, Option.some.injEq] at hx
      rw [← hx]
      simpa using hp

/-- `dropWhile` is the identity on a list whose head fails `p`. -/
theorem dropWhile_eq_self_of_head_false (p : Char → Bool) (l : List Char)
    (h : ∀ x, l.head? = some x → p x = false) : l.dropWhile p = l := by
  cases l with
  | nil => rfl
  | cons a t => exact List.dropWhile_cons_of_neg (by simp [h a rfl])

/-- Stripping a character list twice equals stripping it once. -/
theorem pyStripL_idem (l : List Char) : pyStripL (pyStripL l) = pyStripL l := by
  obtain ⟨s, hs⟩ := List.rdropWhile_prefix pyWhitespace (l.dropWhile pyWhitespace)
  have hs' : pyStripL l ++ s = List.dropWhile pyWhitespace l := hs
  have h1 : List.dropWhile pyWhitespace (pyStripL l) = pyStripL l := by
    apply dropWhile_eq_self_of_head_false
    intro x hx
    apply head?_dropWhile_false pyWhitespace l x
    cases hpl : pyStripL l with
    | nil =>
      rw [hpl] at hx
      simp at hx
    | cons y ys =>
      rw [hpl] at hx
      simp only [List.head?_cons, Option.some.injEq] at hx
      rw [hpl] at hs'
      rw [← hs']
      simp [hx]
  show List.rdropWhile pyWhitespace (List.dropWhile pyWhitespace (pyStripL l)) = pyStripL l
  rw [h1]
  exact List.rdropWhile_idempotent _ _

/-- The `"OTHER"` fallback itself passes the substring validation. -/
theorem categoryIsValidSub_OTHER : categoryIsValidSub "OTHER" = true := by decide

/-! ## Claim theorems -/

/-- Claim C1, counterexample.  The claim says that when the normalized
classifier output contains exactly one valid label as a substring, the
stored category equals that label itself.  On the spec's own scenario
output `"This looks like SPAM content"` — whose normalized form contains
`SPAM` and none of the other three labels — the code stores the whole
normalized string `"THIS LOOKS LIKE SPAM CONTENT"`, not `"SPAM"`. -/
theorem categorize_label_equality_counterexample :
    substrS "URGENT" (pyUpper (pyStrip "This looks like SPAM content")) = false ∧
    substrS "LEAD" (pyUpper (pyStrip "This looks like SPAM content")) = false ∧
    substrS "SPAM" (pyUpper (pyStrip "This looks like SPAM content")) = true ∧
    substrS "OTHER" (pyUpper (pyStrip "This looks like SPAM content")) = false ∧
    (analyze_email (fun _ => Except.ok "This looks like SPAM content")
        (initial_state "e" "h")).state.category ≠ "SPAM" ∧
    (analyze_email (fun _ => Except.ok "This looks like SPAM content")
        (initial_state "e" "h")).state.category = "THIS LOOKS LIKE SPAM CONTENT" := by
  decide

/-- Claim C1, amended: for every model-client output whose
stripped-then-uppercased form contains at least one of the four labels as
a substring, the Categorize step stores that entire normalized output as
the category (it equals the label only when the normalized output is
exactly the label). -/
theorem categorize_stores_normalized_output (llm : ModelClient) (s : AgentState)
    (content : String)
    (hok : llm (analyze_prompt s.email_content s.history) = Except.ok content)
    (hval : categoryIsValidSub (pyUpper (pyStrip content)) = true) :
    (analyze_email llm s).state.category = pyUpper (pyStrip content) := by
  unfold analyze_email
  simp [hok, hval]

/-- Claim C1, witness for the amended theorem at the spec's scenario
output. -/
theorem categorize_stores_normalized_output_witness :
    (analyze_email (fun _ => Except.ok "This looks like SPAM content")
        (initial_state "e" "h")).state.category =
      pyUpper (pyStrip "This looks like SPAM content") :=
  categorize_stores_normalized_output (fun _ => Except.ok "This looks like SPAM content")
    (initial_state "e" "h") "This looks like SPAM content" rfl (by decide)

/-- Claim C2, counterexample.  The claim says the category is always a
member of the set of four labels after the Categorize step; on classifier
output `"This looks like SPAM content"` the stored category is
`"THIS LOOKS LIKE SPAM CONTENT"`, which is not a member of the set. -/
theorem category_membership_counterexample :
    (analyze_email (fun _ => Except.ok "This looks like SPAM content")
        (initial_state "e" "h")).state.category ∉ validCategories := by
  decide

/-- Claim C2, amended: after the Categorize step runs (model success or
raised exception alike), the category always contains at least one of
URGENT, LEAD, SPAM, OTHER as a substring — but need not equal any of
them. -/
theorem category_always_contains_valid_label (llm : ModelClient) (s : AgentState) :
    categoryIsValidSub (analyze_email llm s).state.category = true := by
  unfold analyze_email
  cases hllm : llm (analyze_prompt s.email_content s.history) with
  | ok content =>
      simp only [hllm]
      by_cases hv : categoryIsValidSub (pyUpper (pyStrip content)) = true
      · simp [hv]
      · simp [hv, categoryIsValidSub_OTHER]
  | error e => simp [hllm, categoryIsValidSub_OTHER]

/-- Claim C3, counterexample.  The claim's guard is category inequality
with "SPAM"; the code's guard is substring containment.  For the state
category `"NOT SPAM, A LEAD"` (not equal to `"SPAM"`) with a succeeding
model client returning `"hello"`, the step does not invoke the model and
stores `"IGNORE"` rather than the sanitized model output. -/
theorem draft_nonspam_equality_counterexample :
    ({ email_content := "e", history := "h", category := "NOT SPAM, A LEAD",
       generated_reply := "" } : AgentState).category ≠ "SPAM" ∧
    (draft_reply (fun _ => Except.ok "hello")
        { email_content := "e", history := "h", category := "NOT SPAM, A LEAD",
          generated_reply := "" }).llmCalls = 0 ∧
    (draft_reply (fun _ => Except.ok "hello")
        { email_content := "e", history := "h", category := "NOT SPAM, A LEAD",
          generated_reply := "" }).state.generated_reply ≠ clean_reply "hello" := by
  decide

/-- Claim C3, amended: for every state whose category does not contain
"SPAM" as a substring, if the model client succeeds during drafting then
the Draft Reply step invokes the model exactly once and sets
generated_reply to sanitize (clean_reply) applied to the raw model
output. -/
theorem draft_nonspam_invokes_and_sanitizes (llm : ModelClient) (s : AgentState)
    (raw : String)
    (hns : substrS "SPAM" s.category = false)
    (hok : llm (draft_prompt s.category s.email_content s.history) = Except.ok raw) :
    (draft_reply llm s).llmCalls = 1 ∧
      (draft_reply llm s).state.generated_reply = clean_reply raw := by
  unfold draft_reply
  simp [hns, hok]

/-- Claim C3, witness for the amended theorem: a LEAD state with a model
client that returns a reply with surrounding whitespace. -/
theorem draft_nonspam_invokes_and_sanitizes_witness :
    (draft_reply (fun _ => Except.ok "  Hello! Book here.  ")
        { email_content := "e", history := "h", category := "LEAD",
          generated_reply := "" }).llmCalls = 1 ∧
    (draft_reply (fun _ => Except.ok "  Hello! Book here.  ")
        { email_content := "e", history := "h", category := "LEAD",
          generated_reply := "" }).state.generated_reply =
      clean_reply "  Hello! Book here.  " :=
  draft_nonspam_invokes_and_sanitizes (fun _ => Except.ok "  Hello! Book here.  ")
    { email_content := "e", history := "h", category := "LEAD", generated_reply := "" }
    "  Hello! Book here.  " (by decide) rfl

/-- Claim C4: for every state whose category is (exactly) "SPAM", the
Draft Reply step sets generated_reply to the sentinel "IGNORE" and never
invokes the model client. -/
theorem draft_spam_ignore (llm : ModelClient) (s : AgentState)
    (h : s.category = "SPAM") :
    (draft_reply llm s).state.generated_reply = "IGNORE" ∧
      (draft_reply llm s).llmCalls = 0 := by
  unfold draft_reply
  have hs : substrS "SPAM" s.category = true := by rw [h]; decide
  simp [hs]

/-- Claim C4, witness at a concrete SPAM state. -/
theorem draft_spam_ignore_witness :
    (draft_reply (fun _ => Except.ok "some reply")
        { email_content := "Buy now!!!", history := "", category := "SPAM",
          generated_reply := "" }).state.generated_reply = "IGNORE" ∧
    (draft_reply (fun _ => Except.ok "some reply")
        { email_content := "Buy now!!!", history := "", category := "SPAM",
          generated_reply := "" }).llmCalls = 0 :=
  draft_spam_ignore (fun _ => Except.ok "some reply")
    { email_content := "Buy now!!!", history := "", category := "SPAM",
      generated_reply := "" } rfl

/-- Claim C5: for every model-client output whose normalized
(stripped-then-uppercased) form contains none of the four labels as a
substring — the empty string included — the Categorize step sets category
to "OTHER". -/
theorem categorize_invalid_fallback_other (llm : ModelClient) (s : AgentState)
    (content : String)
    (hok : llm (analyze_prompt s.email_content s.history) = Except.ok content)
    (hnv : categoryIsValidSub (pyUpper (pyStrip content)) = false) :
    (analyze_email llm s).state.category = "OTHER" := by
  unfold analyze_email
  simp [hok, hnv]

/-- Claim C5, witness: the spec's scenario of an empty classifier
output. -/
theorem categorize_invalid_fallback_other_witness :
    (analyze_email (fun _ => Except.ok "")
        (initial_state "Please fix my leaking faucet ASAP" "")).state.category =
      "OTHER" :=
  categorize_invalid_fallback_other (fun _ => Except.ok "")
    (initial_state "Please fix my leaking faucet ASAP" "") "" rfl (by decide)

/-- Claim C6: if the model client raises during the Categorize step, the
step catches it (the embedded step is a total function producing a state,
modelling that no exception escapes) and sets category to "OTHER". -/
theorem categorize_exception_fallback_other (llm : ModelClient) (s : AgentState)
    (e : String)
    (herr : llm (analyze_prompt s.email_content s.history) = Except.error e) :
    (analyze_email llm s).state.category = "OTHER" := by
  unfold analyze_email
  simp [herr]

/-- Claim C6, witness: a client that always raises. -/
theorem categorize_exception_fallback_other_witness :
    (analyze_email (fun _ => Except.error "connection refused")
        (initial_state "hello" "")).state.category = "OTHER" :=
  categorize_exception_fallback_other (fun _ => Except.error "connection refused")
    (initial_state "hello" "") "connection refused" rfl

/-- Claim C7: if the model client raises during the Draft Reply step (for
a category not short-circuited as SPAM), the step catches it and sets
generated_reply to the fixed acknowledgment string. -/
theorem draft_exception_fallback (llm : ModelClient) (s : AgentState) (e : String)
    (hns : substrS "SPAM" s.category = false)
    (herr : llm (draft_prompt s.category s.email_content s.history) = Except.error e) :
    (draft_reply llm s).state.generated_reply =
      "Thank you for your email. We will respond shortly." := by
  unfold draft_reply
  simp [hns, herr]

/-- Claim C7, witness: an URGENT state with a client that raises. -/
theorem draft_exception_fallback_witness :
    (draft_reply (fun _ => Except.error "timeout")
        { email_content := "Please fix my leaking faucet ASAP", history := "",
          category := "URGENT", generated_reply := "" }).state.generated_reply =
      "Thank you for your email. We will respond shortly." :=
  draft_exception_fallback (fun _ => Except.error "timeout")
    { email_content := "Please fix my leaking faucet ASAP", history := "",
      category := "URGENT", generated_reply := "" } "timeout" (by decide) rfl

/-- Claim C8: when the workflow completes with final state st, the
endpoint returns the success dict built from st's category and reply;
when an uncaught exception escapes the workflow, the endpoint catches it
and returns the error dict carrying the message; in both branches the
HTTP status code is the route default 200 (the handler never re-raises
and never sets an error status code). -/
theorem run_agent_response_policy :
    (∀ st : AgentState,
        run_agent (Except.ok st) = ApiResponse.success st.category st.generated_reply ∧
        (run_agent (Except.ok st)).statusField = "success") ∧
    (∀ e : String,
        run_agent (Except.error e) = ApiResponse.error e ∧
        (run_agent (Except.error e)).statusField = "error") ∧
    (∀ r : Except String AgentState, run_agent_http_status r = 200) := by
  refine ⟨fun st => ⟨rfl, rfl⟩, fun e => ⟨rfl, rfl⟩, fun r => ?_⟩
  cases r <;> rfl

/-- Claim C9: the Reply Sanitizer clean_reply is idempotent. -/
theorem clean_reply_idempotent (x : String) :
    clean_reply (clean_reply x) = clean_reply x :=
  congrArg String.mk (pyStripL_idem x.data)

/-- Claim C10: the Draft Reply short-circuit is substring containment —
any state whose category merely contains "SPAM" as a substring gets the
"IGNORE" sentinel with the model client never invoked. -/
theorem draft_spam_substring_short_circuit (llm : ModelClient) (s : AgentState)
    (h : substrS "SPAM" s.category = true) :
    (draft_reply llm s).state.generated_reply = "IGNORE" ∧
      (draft_reply llm s).llmCalls = 0 := by
  unfold draft_reply
  simp [h]

/-- Claim C10, witness at a category that contains SPAM without being
equal to it. -/
theorem draft_spam_substring_short_circuit_witness :
    (draft_reply (fun _ => Except.ok "some reply")
        { email_content := "e", history := "h",
          category := "THIS LOOKS LIKE SPAM CONTENT",
          generated_reply := "" }).state.generated_reply = "IGNORE" ∧
    (draft_reply (fun _ => Except.ok "some reply")
        { email_content := "e", history := "h",
          category := "THIS LOOKS LIKE SPAM CONTENT",
          generated_reply := "" }).llmCalls = 0 :=
  draft_spam_substring_short_circuit (fun _ => Except.ok "some reply")
    { email_content := "e", history := "h",
      category := "THIS LOOKS LIKE SPAM CONTENT", generated_reply := "" }
    (by decide)
